import Mathlib

/-!
Verification of the action-oriented multi-agent orchestrator.

This file gives a shallow embedding, in Lean 4, of the Python sources of the
repository (orchestrator, execution agent, validation agent, coordinator
fallback, file manager and shell executor tools) and settles the frozen
claims about them.  Each definition is translated from the corresponding
Python function; comments name the source file and the translated symbol.

Conventions of the embedding:
- Python strings are Lean `String`s; the few text operations the sources use
  (`str.lower`, `str.upper`, `in` substring test, `str.replace`,
  `str.startswith`) are re-implemented on `List Char` so that every
  definition is executable and kernel-reducible.  The re-implementations
  follow CPython semantics on the ASCII inputs the system manipulates.
- Python dictionaries with a fixed key vocabulary (task metadata, execution
  result dictionaries) become structures whose fields are the keys the
  sources read or write; a missing key is `none`.
- Side effects (spawning, killing, writing files, creating directories) are
  recorded in explicit effect records returned next to the value, so that
  what the code *does* is part of the function's result.
- External behaviours (the subprocess, the HTTP transport, the LLM) are
  parameters of the embedded functions: the code under verification is the
  deterministic control logic around them.
- `datetime` timestamps and the float `execution_time` field are not
  modelled; no claim mentions them.
-/

namespace Agents

/-! ## Data model — `src/config/models.py` -/

/-- `TaskStatus` from `config/models.py`. -/
inductive TaskStatus where
  | pending
  | in_progress
  | completed
  | failed
  | validating
  | retrying
deriving DecidableEq, Repr

/-- `AgentType` from `config/models.py`. -/
inductive AgentType where
  | coordinator
  | research
  | analysis
  | code
  | validation
  | integration
  | execution
deriving DecidableEq, Repr

/-- `ActionType` from `config/models.py`. -/
inductive ActionType where
  | file_write
  | file_read
  | command_run
  | code_execute
  | api_call
deriving DecidableEq, Repr

/-- `ActionResult` from `config/models.py` (the float `execution_time` and the
free-form `metadata` dict are not modelled). -/
structure ActionResult where
  action_type : ActionType
  success : Bool
  output : Option String := none
  error : Option String := none
  files_created : List String := []
deriving DecidableEq, Repr

/-- The task `metadata` dictionary, restricted to the keys the verified code
reads or writes (`type`, `file_path`, `content`, `command`, `url`, `method`,
`action`, `start_command`).  A missing key is `none`. -/
structure Metadata where
  mtype : Option String := none
  file_path : Option String := none
  content : Option String := none
  command : Option String := none
  url : Option String := none
  method : Option String := none
  action : Option String := none
  start_command : Option String := none
deriving DecidableEq, Repr

/-- `Task` from `config/models.py` (timestamps not modelled). -/
structure Task where
  id : String
  description : String := ""
  agent_type : AgentType
  dependencies : List String := []
  status : TaskStatus := .pending
  result : Option String := none
  error : Option String := none
  action_result : Option ActionResult := none
  retry_count : Nat := 0
  metadata : Metadata := {}
deriving DecidableEq, Repr

/-- `ObjectiveStatus` from `config/models.py`; the source value `"partial"`
is rendered `partly` here because the source's name is reserved in Lean. -/
inductive ObjectiveStatus where
  | pending
  | in_progress
  | completed
  | failed
  | partly
deriving DecidableEq, Repr

/-! ## Python string primitives used by the sources

Executable re-implementations of the CPython operations the verified code
calls, on `List Char` / `String`. -/

/-- `str.lower` for ASCII characters (all denylist patterns and the commands
of the claims are ASCII). -/
def charLower (c : Char) : Char :=
  if 'A' ≤ c ∧ c ≤ 'Z' then Char.ofNat (c.toNat + 32) else c

/-- `str.upper` for ASCII characters. -/
def charUpper (c : Char) : Char :=
  if 'a' ≤ c ∧ c ≤ 'z' then Char.ofNat (c.toNat - 32) else c

/-- `command.lower()` seen as a `String` operation. -/
def lowerStr (s : String) : String := (s.toList.map charLower).asString

/-- `dep_id.upper()` seen as a `String` operation. -/
def upperStr (s : String) : String := (s.toList.map charUpper).asString

/-- Scan of `hay` for an occurrence of `needle` at any position. -/
def containsSubAux (needle : List Char) : List Char → Bool
  | [] => needle.isPrefixOf []
  | c :: cs => needle.isPrefixOf (c :: cs) || containsSubAux needle cs

/-- Python's `needle in hay` substring test. -/
def containsSub (hay needle : String) : Bool :=
  containsSubAux needle.toList hay.toList

/-- Python's `hay.startswith(pre)`. -/
def startsWithStr (hay pre : String) : Bool :=
  pre.toList.isPrefixOf hay.toList

/-- Splitting of a character list at separator characters (tokens in
reverse-building accumulator form). -/
def splitByAux (sep : Char → Bool) : List Char → List Char → List String
  | [], acc => [acc.reverse.asString]
  | c :: cs, acc =>
    if sep c then acc.reverse.asString :: splitByAux sep cs []
    else splitByAux sep cs (c :: acc)

/-- One step of Python's `str.replace` (all occurrences, leftmost,
non-overlapping), with explicit fuel so the definition is structural; the
fuel is instantiated with the length of the subject, which suffices because
each step consumes at least one subject character when the pattern is
non-empty (every placeholder pattern is non-empty). -/
def pyReplaceAux : Nat → List Char → List Char → List Char → List Char
  | 0, cs, _, _ => cs
  | _ + 1, [], _, _ => []
  | fuel + 1, c :: cs, pat, rep =>
    if pat.isPrefixOf (c :: cs) ∧ pat ≠ [] then
      rep ++ pyReplaceAux fuel ((c :: cs).drop pat.length) pat rep
    else
      c :: pyReplaceAux fuel cs pat rep

/-- Python's `s.replace(pat, rep)` (for non-empty `pat`). -/
def pyReplace (s pat rep : String) : String :=
  (pyReplaceAux s.toList.length s.toList pat.toList rep.toList).asString

/-! ## Path model — `pathlib` as used by the sources

`FileManager._is_safe_path` (`src/tools/file_manager.py`) and
`ExecutionAgent._execute_file_write` (`src/agents/execution_agent.py`) build
`(root / relativePath).resolve()` and compare its string form against the
string form of the resolved root with `str.startswith`.  A `pathlib` path is
modelled as an absolute flag plus its components; `resolve` normalises `.`
and `..` the way `Path.resolve` does on an absolute path (`..` at the root
stays at the root). -/

structure PurePath where
  absolute : Bool
  comps : List String
deriving DecidableEq, Repr

/-- Python's `a / b` on paths: an absolute right operand replaces the left
one entirely. -/
def pathJoin (a b : PurePath) : PurePath :=
  if b.absolute then b else ⟨a.absolute, a.comps ++ b.comps⟩

/-- Normalisation of the component list performed by `Path.resolve` on an
absolute path: `.` is dropped, `..` removes the previous component (and is
ignored at the root). -/
def resolveComps (cs : List String) : List String :=
  cs.foldl (fun acc c => if c = "." then acc else if c = ".." then acc.dropLast else acc ++ [c]) []

/-- `Path.resolve()` of an already-absolute path. -/
def pyResolve (p : PurePath) : PurePath := ⟨true, resolveComps p.comps⟩

/-- `str(p)` for an absolute path. -/
def pathStr (p : PurePath) : String := "/" ++ String.intercalate "/" p.comps

/-- Parsing of the string stored under `file_path` into a path, as
`pathlib` does when a `str` is joined onto a `Path`. -/
def strToPath (s : String) : PurePath :=
  ⟨startsWithStr s "/", (splitByAux (fun c => c = '/') s.toList []).filter (fun c => c ≠ "")⟩

/-- `FileManager._is_safe_path` (`src/tools/file_manager.py`, lines 20-28):
resolve `workspace_dir / filepath` and accept iff its string form starts
with the string form of the resolved workspace directory.  The `except`
branch (line 27) is unreachable in the pure model and is not represented. -/
def is_safe_path (workspace_dir : PurePath) (filepath : PurePath) : Bool × Option String :=
  let abs_path := pyResolve (pathJoin workspace_dir filepath)
  if startsWithStr (pathStr abs_path) (pathStr (pyResolve workspace_dir)) then
    (true, none)
  else
    (false, some "Path outside workspace not allowed")

/-- The property the spec claims for the path check: the resolved target
lies inside the sandbox root (the root's resolved components are a prefix of
the target's). -/
def insideRoot (workspace_dir : PurePath) (filepath : PurePath) : Bool :=
  (pyResolve workspace_dir).comps.isPrefixOf (pyResolve (pathJoin workspace_dir filepath)).comps

/-! ## Command safety — `ExecutionAgent._validate_command` and
`ShellExecutor.is_safe_command`

`ExecutionAgent.DANGEROUS_PATTERNS` (`src/agents/execution_agent.py`,
lines 33-43) is a list of regular expressions searched with
`re.search(pattern, command.lower())`.  The patterns use only literals,
`\s+`, `\s*` and `.*`, so each is embedded as a sequence of atoms and the
search is an executable matcher for exactly that fragment of `re`. -/

inductive ReAtom where
  | lit (s : String)
  | ws1
  | ws0
  | anyStar
deriving DecidableEq, Repr

/-- Python's `\s` character class (ASCII range; `re` on `str` also matches
some further Unicode spaces, which no source pattern or claim exercises). -/
def isPyWs (c : Char) : Bool :=
  c = ' ' || c = '\t' || c = '\n' || c = '\x0d' || c = '\x0b' || c = '\x0c'

/-- `\s*` followed by the continuation `next`: try the continuation after
consuming any number of whitespace characters. -/
def wsStar (next : List Char → Bool) : List Char → Bool
  | [] => next []
  | c :: cs => next (c :: cs) || (isPyWs c && wsStar next cs)

/-- `.*` followed by the continuation `next` (`.` does not match a newline,
as in `re` without `DOTALL`). -/
def dotStar (next : List Char → Bool) : List Char → Bool
  | [] => next []
  | c :: cs => next (c :: cs) || (c ≠ '\n' && dotStar next cs)

/-- Does some prefix of `cs` match the atom sequence? -/
def matchAtoms : List ReAtom → List Char → Bool
  | [], _ => true
  | .lit s :: rest, cs => s.toList.isPrefixOf cs && matchAtoms rest (cs.drop s.toList.length)
  | .ws1 :: rest, cs =>
    match cs with
    | [] => false
    | c :: cs' => isPyWs c && wsStar (matchAtoms rest) cs'
  | .ws0 :: rest, cs => wsStar (matchAtoms rest) cs
  | .anyStar :: rest, cs => dotStar (matchAtoms rest) cs

/-- `re.search`: does the atom sequence match starting at some position? -/
def reSearch (atoms : List ReAtom) : List Char → Bool
  | [] => matchAtoms atoms []
  | c :: cs => matchAtoms atoms (c :: cs) || reSearch atoms cs

/-- A denylist entry: the raw pattern text (used in the rejection reason)
and its embedding as atoms. -/
structure RePattern where
  raw : String
  atoms : List ReAtom
deriving DecidableEq, Repr

/-- `ExecutionAgent.DANGEROUS_PATTERNS` (`src/agents/execution_agent.py`,
lines 33-43), in source order.  The brace characters of the fork-bomb
pattern are written with their codes. -/
def DANGEROUS_PATTERNS : List RePattern :=
  [ ⟨"rm\\s+-rf", [.lit "rm", .ws1, .lit "-rf"]⟩,
    ⟨"dd\\s+if=", [.lit "dd", .ws1, .lit "if="]⟩,
    ⟨":\\(\\)\\s*\x7b\\s*:\\s*;\\s*:\\s*\x7d",
      [.lit ":()", .ws0, .lit "\x7b", .ws0, .lit ":", .ws0, .lit ";", .ws0, .lit ":", .ws0,
        .lit "\x7d"]⟩,
    ⟨"sudo", [.lit "sudo"]⟩,
    ⟨"chmod.*777", [.lit "chmod", .anyStar, .lit "777"]⟩,
    ⟨"mkfs", [.lit "mkfs"]⟩,
    ⟨"shred", [.lit "shred"]⟩,
    ⟨"tee /proc", [.lit "tee /proc"]⟩,
    ⟨">.*</dev/sd", [.lit ">", .anyStar, .lit "</dev/sd"]⟩ ]

/-- `ExecutionAgent._validate_command` (`src/agents/execution_agent.py`,
lines 318-322): search each pattern in the lowered command, in order; the
first hit rejects with a reason naming the raw pattern. -/
def validate_command (command : String) : Bool × Option String :=
  match DANGEROUS_PATTERNS.find? (fun p => reSearch p.atoms (lowerStr command).toList) with
  | some p => (false, some ("Dangerous pattern detected: " ++ p.raw))
  | none => (true, none)

/-- `settings.BLOCKED_COMMANDS` (`src/config/settings.py`, lines 43-45). -/
def BLOCKED_COMMANDS : List String :=
  ["rm -rf", "mkfs", "dd", "fork", ":()", "shutdown", "reboot"]

/-- `settings.ALLOWED_COMMANDS` (`src/config/settings.py`, lines 39-42). -/
def ALLOWED_COMMANDS : List String :=
  ["ls", "cat", "echo", "pwd", "whoami", "date", "python", "pip", "git", "curl", "wget"]

/-- Splitting of a character list at whitespace. -/
def splitWsAux : List Char → List Char → List String :=
  splitByAux isPyWs

/-- `shlex.split` restricted to commands without quoting or escapes (every
command in the claims is of this form): whitespace tokenisation.  The
exception branch of the source (`Invalid command syntax`) is unreachable on
such commands and is not represented. -/
def shlexSplit (s : String) : List String :=
  (splitWsAux s.toList []).filter (fun t => t ≠ "")

/-- `ShellExecutor.is_safe_command` (`src/tools/shell_executor.py`,
lines 20-47): a case-sensitive substring pass over the blocked fragments,
then an allowlist check on the base command. -/
def is_safe_command (command : String) : Bool × Option String :=
  match BLOCKED_COMMANDS.find? (fun b => containsSub command b) with
  | some b => (false, some ("Blocked command pattern: " ++ b))
  | none =>
    match shlexSplit command with
    | [] => (false, some "Empty command")
    | base_cmd :: _ =>
      if ALLOWED_COMMANDS.contains base_cmd then (true, none)
      else (false, some ("Command not in allowed list: " ++ base_cmd))

/-! ## Action runner — `ExecutionAgent` (`src/agents/execution_agent.py`)

The dictionaries the `_execute_*` helpers return (and that `execute`
serialises with `json.dumps`) share one record type; a key a branch does not
set is `none`.  External behaviour (the subprocess, the HTTP transport, the
server spawn, filesystem errors) is a parameter; the side effects the code
performs are returned in an explicit effect record. -/

/-- The result dictionary built by the `_execute_*` helpers and `_error`. -/
structure ExecRecord where
  success : Bool
  rtype : String
  error : Option String := none
  command : Option String := none
  exit_code : Option Int := none
  stdout : Option String := none
  file_path : Option String := none
  bytes_written : Option Nat := none
  method : Option String := none
  url : Option String := none
  status_code : Option Int := none
  body : Option String := none
  pid : Option Nat := none
  message : Option String := none
  action : Option String := none
deriving DecidableEq, Repr

/-- `ExecutionAgent._error` (`src/agents/execution_agent.py`,
lines 329-335). -/
def mkError (message : String) (exec_type : String) (command : Option String := none) :
    ExecRecord :=
  { success := false, rtype := exec_type, error := some message, command := command }

/-- Side effects performed by one action: whether a subprocess was spawned,
whether it was killed or terminated, whether parent directories were
created, and the file write performed (absolute target path and content). -/
structure RunEffects where
  spawned : Bool := false
  killed : Bool := false
  mkdirParents : Bool := false
  written : Option (String × String) := none
deriving DecidableEq, Repr

/-- Behaviour of the subprocess spawned by `_execute_command`: it either
exits with a code (emitting output lines) within the timeout, or exceeds
the timeout. -/
inductive ProcBehavior where
  | completes (exit_code : Int) (output : List String)
  | timesOut
deriving DecidableEq, Repr

/-- Behaviour of the HTTP transport used by `_execute_http`. -/
inductive HttpBehavior where
  | responds (status_code : Int) (body : String)
  | raises (msg : String)
deriving DecidableEq, Repr

/-- Behaviour of the detached spawn performed by `_execute_server`. -/
inductive SpawnBehavior where
  | spawns (pid : Nat)
  | raises (msg : String)
deriving DecidableEq, Repr

/-- The external world an `ExecutionAgent.execute` call interacts with. -/
structure WorldBehavior where
  proc : ProcBehavior := .completes 0 []
  http : HttpBehavior := .responds 200 ""
  spawn : SpawnBehavior := .spawns 1
  fileErr : Option String := none
deriving Repr

/-- `ExecutionAgent._execute_file_write` (`src/agents/execution_agent.py`,
lines 156-190).  `workspace` stands for the resolved absolute
`WORKSPACE_DIR` global; `fileErr` is a filesystem error raised by `mkdir` or
`write_text` (`none` when the write succeeds). -/
def executeFileWrite (workspace : PurePath) (m : Metadata) (fileErr : Option String) :
    ExecRecord × RunEffects :=
  let rel_path := m.file_path.getD ""
  let content := m.content.getD ""
  if rel_path = "" then
    (mkError "file_path missing for file execution" "file", {})
  else
    let target_path := pyResolve (pathJoin workspace (strToPath rel_path))
    if ¬ startsWithStr (pathStr target_path) (pathStr workspace) then
      (mkError "File write outside workspace blocked" "file", {})
    else
      match fileErr with
      | some e => (mkError e "file", {})
      | none =>
        ({ success := true, rtype := "file", file_path := some rel_path,
           bytes_written := some content.length },
         { mkdirParents := true, written := some (pathStr target_path, content) })

/-- `ExecutionAgent._execute_command` (`src/agents/execution_agent.py`,
lines 196-241).  On `subprocess.TimeoutExpired` the source returns the
timeout error record without killing or terminating the child, which the
effect record makes explicit (`killed := false`). -/
def executeCommand (m : Metadata) (beh : ProcBehavior) : ExecRecord × RunEffects :=
  let command := m.command.getD ""
  if command = "" then
    (mkError "No executable command provided (natural language blocked)" "command", {})
  else
    match validate_command command with
    | (false, reason) => (mkError (reason.getD "") "command" (some command), {})
    | (true, _) =>
      match beh with
      | .completes exit_code output =>
        ({ success := exit_code == 0, rtype := "command", command := some command,
           exit_code := some exit_code, stdout := some (String.join output) },
         { spawned := true })
      | .timesOut =>
        (mkError "Command timeout" "command" (some command),
         { spawned := true, killed := false })

/-- `ExecutionAgent._execute_http` (`src/agents/execution_agent.py`,
lines 247-279). -/
def executeHttp (m : Metadata) (beh : HttpBehavior) : ExecRecord :=
  let method := upperStr (m.method.getD "GET")
  match m.url with
  | none => mkError "URL missing for HTTP execution" "http"
  | some url =>
    if url = "" then mkError "URL missing for HTTP execution" "http"
    else
      match beh with
      | .responds status_code body =>
        { success := decide (200 ≤ status_code ∧ status_code < 300), rtype := "http",
          method := some method, url := some url, status_code := some status_code,
          body := some body }
      | .raises e => mkError e "http"

/-- `ExecutionAgent._execute_server` (`src/agents/execution_agent.py`,
lines 285-312). -/
def executeServer (m : Metadata) (beh : SpawnBehavior) : ExecRecord × RunEffects :=
  if m.action ≠ some "start" then
    (mkError "Unsupported server action" "server", {})
  else if m.start_command.getD "" = "" then
    (mkError "start_command missing for server start" "server", {})
  else
    match beh with
    | .spawns pid =>
      ({ success := true, rtype := "server", action := some "start", pid := some pid },
       { spawned := true })
    | .raises e => (mkError e "server", {})

/-- Rendering of `json.dumps({"pid": result.get("pid")})` (the exact JSON
text is irrelevant to every claim). -/
def pidJson : Option Nat → String
  | some p => "pid=" ++ toString p
  | none => "pid=null"

/-- `ExecutionAgent.execute` (`src/agents/execution_agent.py`,
lines 59-150): dispatch on `metadata.get("type", "noop")`, build the
`ActionResult` attached to the task, and return the result record (the
source returns its `json.dumps`; the record is its parsed form).  The
embedded branches are total, so the `except` fallback of lines 134-150 has
no reachable counterpart. -/
def executeAgent (workspace : PurePath) (m : Metadata) (w : WorldBehavior) :
    ExecRecord × ActionResult × RunEffects :=
  let exec_type := m.mtype.getD "noop"
  if exec_type = "noop" then
    ({ success := true, rtype := "noop", message := some "No execution required" },
     { action_type := .file_write, success := true, output := some "No execution required" },
     {})
  else if exec_type = "command" then
    let (r, eff) := executeCommand m w.proc
    (r, { action_type := .command_run, success := r.success,
          output := some (r.stdout.getD ""), error := r.error }, eff)
  else if exec_type = "http" then
    let r := executeHttp m w.http
    (r, { action_type := .api_call, success := r.success,
          output := some (r.body.getD ""), error := r.error }, {})
  else if exec_type = "server" then
    let (r, eff) := executeServer m w.spawn
    (r, { action_type := .command_run, success := r.success,
          output := some (pidJson r.pid), error := r.error }, eff)
  else if exec_type = "file" then
    let (r, eff) := executeFileWrite workspace m w.fileErr
    (r, { action_type := .file_write, success := r.success,
          output := some ("File created: " ++ r.file_path.getD ""),
          files_created := if r.success then [r.file_path.getD ""] else [],
          error := r.error }, eff)
  else
    (mkError ("Unknown execution type: " ++ exec_type) exec_type,
     { action_type := .code_execute, success := false,
       error := some ("Unknown execution type: " ++ exec_type) }, {})

/-! ## Validation gate — `ValidationAgent` (`src/agents/validation_agent.py`)

`_validate_execution_result` (lines 60-109) parses the execution agent's
JSON result and checks it structurally; the embedding works on the parsed
record directly (the JSON round trip of a record produced by
`ExecutionAgent.execute` is lossless).  `fsExists p` stands for
`(Path("workspace") / p).exists()`. -/

/-- `ValidationAgent._validate_execution_result` on a parsed record
(`src/agents/validation_agent.py`, lines 67-98; the `JSONDecodeError` and
generic-exception branches apply only to non-record results). -/
def validateExecutionResult (fsExists : String → Bool) (r : ExecRecord) : Bool × String :=
  if ¬ r.success then
    (false, "Execution failed: " ++ r.error.getD "Unknown error")
  else if r.rtype = "file" then
    if r.file_path.getD "" ≠ "" ∧ ¬ fsExists (r.file_path.getD "") then
      (false, "File was not created: " ++ r.file_path.getD "")
    else (true, "Execution successful")
  else if r.rtype = "command" then
    if r.exit_code.getD 1 ≠ 0 then
      (false, "Command failed with exit code " ++ toString (r.exit_code.getD 1))
    else (true, "Execution successful")
  else if r.rtype = "server" then
    if r.pid.getD 0 = 0 then (false, "Server failed to start")
    else (true, "Execution successful")
  else (true, "Execution successful")

/-! ## Planner fallback — `CoordinatorAgent` (`src/agents/coordinator_agent.py`) -/

/-- One task specification as produced by the planner boundary
(`decompose_objective` returns a list of these dictionaries). -/
structure TaskSpec where
  id : String
  description : String
  agent_type : String
  dependencies : List String := []
  success_criteria : String := ""
  metadata : Metadata := {}
deriving DecidableEq, Repr

/-- `CoordinatorAgent._create_fallback_task` (`src/agents/coordinator_agent.py`,
lines 219-304), verbatim. -/
def createFallbackTask (objective : String) : List TaskSpec :=
  [ { id := "task_1", description := "Generate models.py for: " ++ objective,
      agent_type := "code", dependencies := [],
      success_criteria := "Models code generated", metadata := {} },
    { id := "task_2", description := "Create models.py file",
      agent_type := "execution", dependencies := ["task_1"],
      success_criteria := "models.py created",
      metadata := { mtype := some "file", file_path := some "models.py",
                    content := some "WILL_BE_REPLACED_WITH_TASK_1_OUTPUT" } },
    { id := "task_3", description := "Generate main.py for: " ++ objective,
      agent_type := "code", dependencies := [],
      success_criteria := "Main entry point code generated", metadata := {} },
    { id := "task_4", description := "Create main.py file",
      agent_type := "execution", dependencies := ["task_3"],
      success_criteria := "main.py created",
      metadata := { mtype := some "file", file_path := some "main.py",
                    content := some "WILL_BE_REPLACED_WITH_TASK_3_OUTPUT" } },
    { id := "task_5", description := "Generate requirements.txt with dependencies",
      agent_type := "code", dependencies := [],
      success_criteria := "Requirements list generated", metadata := {} },
    { id := "task_6", description := "Create requirements.txt file",
      agent_type := "execution", dependencies := ["task_5"],
      success_criteria := "requirements.txt created",
      metadata := { mtype := some "file", file_path := some "requirements.txt",
                    content := some "WILL_BE_REPLACED_WITH_TASK_5_OUTPUT" } },
    { id := "task_7", description := "Generate README.md documentation",
      agent_type := "code", dependencies := [],
      success_criteria := "Documentation generated", metadata := {} },
    { id := "task_8", description := "Create README.md file",
      agent_type := "execution", dependencies := ["task_7"],
      success_criteria := "README.md created",
      metadata := { mtype := some "file", file_path := some "README.md",
                    content := some "WILL_BE_REPLACED_WITH_TASK_7_OUTPUT" } } ]

/-- `CoordinatorAgent.decompose_objective` (`src/agents/coordinator_agent.py`,
lines 43-60): the planner call plus `_parse_task_response` either yields a
task list or raises; any raise falls back to `_create_fallback_task`. -/
def decomposeObjective (objective : String) (planner : Except String (List TaskSpec)) :
    List TaskSpec :=
  match planner with
  | .ok specs => specs
  | .error _ => createFallbackTask objective

/-! ## Execution loop — `ActionOrchestrator` (`src/orchestrator/orchestrator.py`)

The running output map `context` (a Python dict updated with
`context[task.id] = task.result`) is an association list read through
first-match lookup; an update prepends, which shadows exactly as the dict
assignment does.  Progress events are not modelled; the `dispatched` field
records the indices of the tasks for which `_execute_task` was invoked
(i.e. which tasks were dispatched to an agent). -/

abbrev Context := List (String × String)

/-- `context.get(dep_id)`. -/
def ctxGet (ctx : Context) (k : String) : Option String := ctx.lookup k

/-- The placeholder token for a predecessor id, as built on line 183 of
`src/orchestrator/orchestrator.py`. -/
def placeholderFor (dep_id : String) : String :=
  "WILL_BE_REPLACED_WITH_" ++ upperStr dep_id ++ "_OUTPUT"

/-- The loop body of `ActionOrchestrator._replace_task_placeholders`
(`src/orchestrator/orchestrator.py`, lines 182-188) over the dependency
list: a placeholder occurring in the content is replaced by the dependency's
context entry when that entry is present and non-empty (the source guards
with `if dep_result:`, so a missing or empty output leaves the token). -/
def bindContent (deps : List String) (ctx : Context) (content : String) : String :=
  deps.foldl
    (fun c dep_id =>
      let ph := placeholderFor dep_id
      if containsSub c ph then
        match ctxGet ctx dep_id with
        | some r => if r ≠ "" then pyReplace c ph r else c
        | none => c
      else c)
    content

/-- `ActionOrchestrator._replace_task_placeholders`
(`src/orchestrator/orchestrator.py`, lines 172-191): no-op when the
`content` metadata field is missing or empty (`if not metadata.get("content")`). -/
def replaceTaskPlaceholders (task : Task) (ctx : Context) : Task :=
  match task.metadata.content with
  | none => task
  | some c =>
    if c = "" then task
    else
      { task with
        metadata := { task.metadata with content := some (bindContent task.dependencies ctx c) } }

/-- `ActionOrchestrator._check_dependencies`
(`src/orchestrator/orchestrator.py`, lines 162-170). -/
def checkDependencies (task : Task) (all_tasks : List Task) : Bool :=
  task.dependencies.all fun dep_id =>
    match all_tasks.find? (fun t => t.id == dep_id) with
    | some dep_task => dep_task.status == .completed
    | none => false

/-- The outcome of `agent.execute(task, context)` for the agent
`_get_agent_for_task` dispatches to: either an exception, or a result
string together with the value of `task.action_result` after the call (the
execution agent sets that field as a side effect; other agents leave it
untouched). -/
inductive AgentOutcome where
  | raises (msg : String)
  | returns (result : String) (action_result : Option ActionResult)
deriving DecidableEq, Repr

/-- The dispatched agents, abstracted: what `agent.execute` does given the
context and the (placeholder-bound) task. -/
abbrev AgentOracle := Context → Task → AgentOutcome

/-- `ActionOrchestrator._execute_task` (`src/orchestrator/orchestrator.py`,
lines 211-268): mark in progress, rebind placeholders, dispatch, and on a
non-raising return mark the task completed and return `true` — there is no
call to `ValidationAgent.validate` and no retry; on an exception mark it
failed with the exception text and return `false`. -/
def executeTask (oracle : AgentOracle) (task : Task) (ctx : Context) : Task × Bool :=
  let bound := replaceTaskPlaceholders { task with status := .in_progress } ctx
  match oracle ctx bound with
  | .returns r ar => ({ bound with result := some r, action_result := ar, status := .completed }, true)
  | .raises e => ({ bound with status := .failed, error := some e }, false)

/-- The mutable state of one `execute_objective` run
(`src/orchestrator/orchestrator.py`, lines 78-119). -/
structure RunState where
  tasks : List Task
  context : Context := []
  actions_executed : List ActionResult := []
  files_generated : List String := []
  dispatched : List Nat := []
deriving Repr

def initState (tasks : List Task) : RunState := { tasks := tasks }

/-- One iteration of the task loop of `execute_objective`
(`src/orchestrator/orchestrator.py`, lines 81-118) at task index `i`:
failed dependency check marks the task failed without dispatch; otherwise
the task is dispatched through `_execute_task` and, on success, its result
enters the context and its action outcome (if any) is appended to
`actions_executed` / `files_generated`. -/
def stepTask (oracle : AgentOracle) (s : RunState) (i : Nat) : RunState :=
  match s.tasks[i]? with
  | none => s
  | some task =>
    if ¬ checkDependencies task s.tasks then
      { s with
        tasks := s.tasks.set i { task with status := .failed, error := some "Dependencies not met" } }
    else
      let (task', ok) := executeTask oracle task s.context
      let tasks' := s.tasks.set i task'
      if ok then
        { tasks := tasks',
          context := (task'.id, task'.result.getD "") :: s.context,
          actions_executed := s.actions_executed ++
            (match task'.action_result with | some ar => [ar] | none => []),
          files_generated := s.files_generated ++
            (match task'.action_result with | some ar => ar.files_created | none => []),
          dispatched := s.dispatched ++ [i] }
      else
        { s with tasks := tasks', dispatched := s.dispatched ++ [i] }

/-- The run state after the first `k` iterations of the task loop. -/
def stateAt (oracle : AgentOracle) (tasks : List Task) (k : Nat) : RunState :=
  (List.range k).foldl (stepTask oracle) (initState tasks)

/-- The complete task loop of `execute_objective` over the plan-ordered
task list. -/
def runObjective (oracle : AgentOracle) (tasks : List Task) : RunState :=
  stateAt oracle tasks tasks.length

/-- `ActionOrchestrator._determine_status`
(`src/orchestrator/orchestrator.py`, lines 294-302). -/
def determineStatus (tasks : List Task) : ObjectiveStatus :=
  if tasks.all (fun t => t.status == .completed) then .completed
  else if tasks.any (fun t => t.status == .completed) then .partly
  else .failed

/-! ## Claims

Each claim of the specification is settled by one theorem below (plus, for
claims whose statement fails on the code, a closed counterexample theorem,
and for theorems with hypotheses, a closed witness instantiating them). -/

/-- Claim C9: at the end of a run the objective status determined by
`_determine_status` is `completed` iff every task ended completed, `partial`
iff some but not all tasks ended completed, and `failed` iff no task ended
completed and not every task did (the last conjunct records that for an
empty task list the all-quantifier wins and the status is `completed`). -/
theorem c9_determine_status (tasks : List Task) :
    (determineStatus tasks = .completed ↔ ∀ t ∈ tasks, t.status = .completed)
    ∧ (determineStatus tasks = .partly ↔
        ((∃ t ∈ tasks, t.status = .completed) ∧ ¬ ∀ t ∈ tasks, t.status = .completed))
    ∧ (determineStatus tasks = .failed ↔
        ((¬ ∃ t ∈ tasks, t.status = .completed) ∧ ¬ ∀ t ∈ tasks, t.status = .completed)) := by
  have hall : (tasks.all fun t => t.status == TaskStatus.completed) = true ↔
      ∀ t ∈ tasks, t.status = .completed := by
    simp [List.all_eq_true]
  have hany : (tasks.any fun t => t.status == TaskStatus.completed) = true ↔
      ∃ t ∈ tasks, t.status = .completed := by
    simp [List.any_eq_true]
  by_cases hA : ∀ t ∈ tasks, t.status = .completed
  · have hb : (tasks.all fun t => t.status == TaskStatus.completed) = true := hall.mpr hA
    unfold determineStatus
    rw [if_pos hb]
    exact ⟨⟨fun _ => hA, fun _ => rfl⟩,
           ⟨fun h => ObjectiveStatus.noConfusion h, fun hc => absurd hA hc.2⟩,
           ⟨fun h => ObjectiveStatus.noConfusion h, fun hc => absurd hA hc.2⟩⟩
  · have hb : ¬ ((tasks.all fun t => t.status == TaskStatus.completed) = true) :=
      fun hh => hA (hall.mp hh)
    unfold determineStatus
    rw [if_neg hb]
    by_cases hE : ∃ t ∈ tasks, t.status = .completed
    · have hb2 : (tasks.any fun t => t.status == TaskStatus.completed) = true := hany.mpr hE
      rw [if_pos hb2]
      exact ⟨⟨fun h => ObjectiveStatus.noConfusion h, fun hforall => absurd hforall hA⟩,
             ⟨fun _ => ⟨hE, hA⟩, fun _ => rfl⟩,
             ⟨fun h => ObjectiveStatus.noConfusion h, fun hc => absurd hE hc.1⟩⟩
    · have hb2 : ¬ ((tasks.any fun t => t.status == TaskStatus.completed) = true) :=
        fun hh => hE (hany.mp hh)
      rw [if_neg hb2]
      exact ⟨⟨fun h => ObjectiveStatus.noConfusion h, fun hforall => absurd hforall hA⟩,
             ⟨fun h => ObjectiveStatus.noConfusion h, fun hc => absurd hc.1 hE⟩,
             ⟨fun _ => ⟨hE, hA⟩, fun _ => rfl⟩⟩

/-- Claim C10, counterexample: the fallback plan produced when the planner's
output is malformed is not a two-task template — it contains eight tasks. -/
theorem c10_fallback_not_two_tasks :
    (createFallbackTask "build a todo app").length = 8 ∧
    (createFallbackTask "build a todo app").length ≠ 2 :=
  ⟨rfl, by decide⟩

/-- Claim C10 as amended: whenever decomposition fails, the system falls
back to a fixed eight-task template — four generation tasks, each followed
by a dependent file-write task, covering `models.py`, `main.py`,
`requirements.txt` and `README.md`, the write tasks carrying the
placeholder token of their generator. -/
theorem c10_fallback_template (objective e : String) :
    decomposeObjective objective (.error e) = createFallbackTask objective
    ∧ (createFallbackTask objective).length = 8
    ∧ (createFallbackTask objective).map (fun t => t.id)
        = ["task_1", "task_2", "task_3", "task_4", "task_5", "task_6", "task_7", "task_8"]
    ∧ (createFallbackTask objective).map (fun t => t.agent_type)
        = ["code", "execution", "code", "execution", "code", "execution", "code", "execution"]
    ∧ (createFallbackTask objective).map (fun t => t.dependencies)
        = [[], ["task_1"], [], ["task_3"], [], ["task_5"], [], ["task_7"]]
    ∧ (createFallbackTask objective).map (fun t => (t.metadata.mtype, t.metadata.file_path, t.metadata.content))
        = [(none, none, none),
           (some "file", some "models.py", some "WILL_BE_REPLACED_WITH_TASK_1_OUTPUT"),
           (none, none, none),
           (some "file", some "main.py", some "WILL_BE_REPLACED_WITH_TASK_3_OUTPUT"),
           (none, none, none),
           (some "file", some "requirements.txt", some "WILL_BE_REPLACED_WITH_TASK_5_OUTPUT"),
           (none, none, none),
           (some "file", some "README.md", some "WILL_BE_REPLACED_WITH_TASK_7_OUTPUT")] :=
  ⟨rfl, rfl, rfl, rfl, rfl, rfl⟩

/-- Sandbox root used in the claim C3 evaluation. -/
def c3Root : PurePath := ⟨true, ["home", "user", "workspace"]⟩

/-- Claim C3 evaluation at the failing input: the relative path
`../workspace2/evil.txt` resolves to `/home/user/workspace2/evil.txt`,
outside the root `/home/user/workspace`, yet `_is_safe_path` accepts it
(the `str.startswith` comparison sees the sibling directory's name extend
the root's string) and the file-write action succeeds and writes outside
the sandbox.  Ordinary `..` traversals and absolute overrides, whose
resolved strings do not extend the root's string, are rejected as the claim
says. -/
theorem c3_path_check_bypass :
    insideRoot c3Root ⟨false, ["..", "workspace2", "evil.txt"]⟩ = false
    ∧ is_safe_path c3Root ⟨false, ["..", "workspace2", "evil.txt"]⟩ = (true, none)
    ∧ (executeFileWrite c3Root
        { mtype := some "file", file_path := some "../workspace2/evil.txt",
          content := some "pwned" } none).1.success = true
    ∧ (executeFileWrite c3Root
        { mtype := some "file", file_path := some "../workspace2/evil.txt",
          content := some "pwned" } none).2.written
        = some ("/home/user/workspace2/evil.txt", "pwned")
    ∧ (is_safe_path c3Root ⟨false, ["..", "x"]⟩).1 = false
    ∧ (is_safe_path c3Root ⟨true, ["etc", "passwd"]⟩).1 = false
    ∧ (executeFileWrite c3Root
        { mtype := some "file", file_path := some "/etc/passwd",
          content := some "x" } none).1
        = mkError "File write outside workspace blocked" "file" := by
  decide

/-- Claim C4, counterexample on `ShellExecutor.is_safe_command`: the command
`echo Rm -rF test` contains the denylisted fragment `rm -rf` as a
case-insensitive substring yet is accepted (the source's substring pass is
case-sensitive), and `touch data.txt` contains no denylisted fragment yet
is rejected (the source additionally requires an allowlisted base command),
so neither half of the claim holds for `is_safe_command`. -/
theorem c4_is_safe_command_counterexample :
    (BLOCKED_COMMANDS.any fun b => containsSub (lowerStr "echo Rm -rF test") b) = true
    ∧ is_safe_command "echo Rm -rF test" = (true, none)
    ∧ (BLOCKED_COMMANDS.any fun b => containsSub (lowerStr "touch data.txt") b) = false
    ∧ (is_safe_command "touch data.txt").1 = false := by
  decide

/-- Claim C4 as amended, for `ExecutionAgent._validate_command` (the check
on the live command path): a command matching any denylisted pattern in its
lowered form is rejected with a reason naming a matching pattern, and a
command matching no pattern is accepted. -/
theorem c4_validate_command (command : String) :
    ((∃ p ∈ DANGEROUS_PATTERNS, reSearch p.atoms (lowerStr command).toList = true) →
      (validate_command command).1 = false ∧
      ∃ p ∈ DANGEROUS_PATTERNS, reSearch p.atoms (lowerStr command).toList = true ∧
        (validate_command command).2 = some ("Dangerous pattern detected: " ++ p.raw))
    ∧ ((∀ p ∈ DANGEROUS_PATTERNS, reSearch p.atoms (lowerStr command).toList = false) →
      validate_command command = (true, none)) := by
  constructor
  · intro h
    rcases hfind : DANGEROUS_PATTERNS.find? (fun p => reSearch p.atoms (lowerStr command).toList)
      with _ | p
    · rcases h with ⟨p, hp, hs⟩
      exact absurd hs (List.find?_eq_none.mp hfind p hp)
    · have hmem : p ∈ DANGEROUS_PATTERNS := List.mem_of_find?_eq_some hfind
      have hpred0 := List.find?_some hfind
      have hpred : reSearch p.atoms (lowerStr command).toList = true := hpred0
      refine ⟨?_, p, hmem, hpred, ?_⟩
      · unfold validate_command
        rw [hfind]
      · unfold validate_command
        rw [hfind]
  · intro h
    have hnone : DANGEROUS_PATTERNS.find? (fun p => reSearch p.atoms (lowerStr command).toList)
        = none :=
      List.find?_eq_none.mpr fun p hp => by
        simp only [Bool.not_eq_true]
        exact h p hp
    unfold validate_command
    rw [hnone]

/-- Witness for `c4_validate_command` at concrete commands: `sudo reboot`
matches the `sudo` pattern and is rejected; `echo hello` matches none and
is accepted. -/
theorem c4_validate_command_witness :
    (validate_command "sudo reboot").1 = false ∧ validate_command "echo hello" = (true, none) :=
  ⟨((c4_validate_command "sudo reboot").1 (by decide)).1,
   (c4_validate_command "echo hello").2 (by decide)⟩

/-- Binding helper: a content string in which no dependency's placeholder
occurs passes through the binder loop unchanged. -/
theorem bindContent_no_match (ds : List String) (ctx : Context) (c : String)
    (h : ∀ d ∈ ds, containsSub c (placeholderFor d) = false) :
    bindContent ds ctx c = c := by
  induction ds with
  | nil => rfl
  | cons d ds ih =>
    have hd : containsSub c (placeholderFor d) = false := h d (List.mem_cons_self d ds)
    have hrest : ∀ d' ∈ ds, containsSub c (placeholderFor d') = false :=
      fun d' hd' => h d' (List.mem_cons_of_mem d hd')
    unfold bindContent at ih ⊢
    simp only [List.foldl_cons, hd, Bool.false_eq_true, if_false]
    exact ih hrest

/-- Restoring the content field with the value it already holds is the
identity on a task. -/
theorem task_content_restore (task : Task) (c : String) (h : task.metadata.content = some c) :
    { task with metadata := { task.metadata with content := some c } } = task := by
  cases task with
  | mk id description agent_type dependencies status result error action_result retry_count metadata =>
    cases metadata
    simp_all

/-- Task and context exhibiting claim C7's failure: the dependency
`task_1` has completed with the empty result string. -/
def c7Task : Task :=
  { id := "task_2", agent_type := .execution, dependencies := ["task_1"],
    metadata := { mtype := some "file", file_path := some "models.py",
                  content := some "WILL_BE_REPLACED_WITH_TASK_1_OUTPUT" } }

/-- Claim C7, counterexample: predecessor `task_1` has completed with result
`""`, and `task_2`'s content holds exactly its token; the claim says the
bound content is the token's verbatim substitution by `""` (that is, `""`),
but the binder's `if dep_result:` guard skips empty outputs and leaves the
token in place. -/
theorem c7_empty_output_not_substituted :
    (replaceTaskPlaceholders c7Task [("task_1", "")]).metadata.content
      = some "WILL_BE_REPLACED_WITH_TASK_1_OUTPUT"
    ∧ pyReplace "WILL_BE_REPLACED_WITH_TASK_1_OUTPUT" (placeholderFor "task_1") "" = ""
    ∧ ("WILL_BE_REPLACED_WITH_TASK_1_OUTPUT" : String) ≠ "" := by
  decide

/-- Claim C7 as amended: for a task whose declared predecessor `p` has
completed with a non-empty result `X`, a content field containing the
literal token for `p` is rewritten by Python `str.replace` of the token
with `X` (verbatim, all occurrences); a task with no (or empty) content
field, or whose content contains no dependency's token, is left unchanged
— and a predecessor output that is missing or empty is skipped, leaving
the token in place. -/
theorem c7_placeholder_binding (task : Task) (p X c : String) (ctx : Context)
    (hdeps : task.dependencies = [p])
    (hc : task.metadata.content = some c) (hcne : c ≠ "")
    (hctx : ctxGet ctx p = some X) (hX : X ≠ "")
    (hocc : containsSub c (placeholderFor p) = true) :
    (replaceTaskPlaceholders task ctx).metadata.content
      = some (pyReplace c (placeholderFor p) X)
    ∧ (∀ (t : Task) (ctx' : Context), t.metadata.content = none →
        replaceTaskPlaceholders t ctx' = t)
    ∧ (∀ (t : Task) (ctx' : Context), t.metadata.content = some "" →
        replaceTaskPlaceholders t ctx' = t)
    ∧ (∀ (t : Task) (ctx' : Context) (c' : String), t.metadata.content = some c' → c' ≠ "" →
        (∀ d ∈ t.dependencies, containsSub c' (placeholderFor d) = false) →
        replaceTaskPlaceholders t ctx' = t) := by
  refine ⟨?_, ?_, ?_, ?_⟩
  · unfold replaceTaskPlaceholders
    rw [hc]
    simp only [hcne, if_false, hdeps]
    unfold bindContent
    simp only [List.foldl_cons, List.foldl_nil, hocc, if_true, hctx, hX]
    simp [hX]
  · intro t ctx' h
    unfold replaceTaskPlaceholders
    rw [h]
  · intro t ctx' h
    unfold replaceTaskPlaceholders
    rw [h]
    simp
  · intro t ctx' c' h hne hno
    unfold replaceTaskPlaceholders
    rw [h]
    simp only [hne, if_false]
    rw [bindContent_no_match t.dependencies ctx' c' hno]
    exact task_content_restore t c' h

/-- Concrete task for the C7 witness. -/
def c7WitnessTask : Task :=
  { id := "task_2", agent_type := .execution, dependencies := ["task_1"],
    metadata := { mtype := some "file", file_path := some "models.py",
                  content := some "WILL_BE_REPLACED_WITH_TASK_1_OUTPUT" } }

/-- Witness for `c7_placeholder_binding`: with the predecessor's completed
output `print(1)`, the bound content is the verbatim substitution. -/
theorem c7_placeholder_binding_witness :
    (replaceTaskPlaceholders c7WitnessTask [("task_1", "print(1)")]).metadata.content
      = some (pyReplace "WILL_BE_REPLACED_WITH_TASK_1_OUTPUT" (placeholderFor "task_1") "print(1)") :=
  (c7_placeholder_binding c7WitnessTask "task_1" "print(1)"
    "WILL_BE_REPLACED_WITH_TASK_1_OUTPUT" [("task_1", "print(1)")]
    rfl rfl (by decide) rfl (by decide) (by decide)).1

/-- Metadata exhibiting claim C6's failure: non-ASCII content. -/
def c6Meta : Metadata :=
  { mtype := some "file", file_path := some "notes.txt", content := some "héllo" }

/-- Claim C6, counterexample: for the content `héllo` the write stores the
UTF-8 encoding (6 bytes — that is the resulting file's byte length), but
the returned record reports `bytes_written = 5`, the character count
(`len(content)`), not the encoded byte count the claim states. -/
theorem c6_bytes_written_counterexample :
    (executeFileWrite ⟨true, ["sandbox"]⟩ c6Meta none).1.bytes_written = some 5
    ∧ (executeFileWrite ⟨true, ["sandbox"]⟩ c6Meta none).2.written
        = some ("/sandbox/notes.txt", "héllo")
    ∧ ("héllo" : String).utf8ByteSize = 6
    ∧ (5 : Nat) ≠ 6 := by
  decide

/-- Claim C6 as amended: a file-write with a valid, safe path creates parent
directories, writes the content (whose encoding is the file's bytes, so the
file's byte length is the content's encoded length), reports the content's
character count as `bytes_written` (equal to the encoded length only for
one-byte characters), and the attached outcome's `files_created` is exactly
the given path; a missing (or empty) `path` parameter fails with the
invalid-parameters error and writes nothing. -/
theorem c6_file_write (workspace : PurePath) (m : Metadata) (p content : String)
    (hp : m.file_path = some p) (hpne : p ≠ "") (hc : m.content = some content)
    (hsafe : startsWithStr (pathStr (pyResolve (pathJoin workspace (strToPath p))))
        (pathStr workspace) = true) :
    executeFileWrite workspace m none
      = ({ success := true, rtype := "file", file_path := some p,
           bytes_written := some content.length },
         { mkdirParents := true,
           written := some (pathStr (pyResolve (pathJoin workspace (strToPath p))), content) })
    ∧ ((executeFileWrite workspace m none).2.written.map fun wr => wr.2.utf8ByteSize)
        = some content.utf8ByteSize
    ∧ (m.mtype = some "file" →
        (executeAgent workspace m {}).2.1.files_created = [p])
    ∧ (∀ (m' : Metadata) (fe : Option String), m'.file_path.getD "" = "" →
        executeFileWrite workspace m' fe
          = (mkError "file_path missing for file execution" "file", {})) := by
  have h1 : executeFileWrite workspace m none
      = ({ success := true, rtype := "file", file_path := some p,
           bytes_written := some content.length },
         { mkdirParents := true,
           written := some (pathStr (pyResolve (pathJoin workspace (strToPath p))), content) }) := by
    unfold executeFileWrite
    simp [hp, hc, hpne, hsafe]
  refine ⟨h1, ?_, ?_, ?_⟩
  · rw [h1]
    rfl
  · intro hm
    unfold executeAgent
    rw [hm]
    simp only [Option.getD_some]
    rw [if_neg (by decide : ¬ ("file" : String) = "noop"),
        if_neg (by decide : ¬ ("file" : String) = "command"),
        if_neg (by decide : ¬ ("file" : String) = "http"),
        if_neg (by decide : ¬ ("file" : String) = "server")]
    simp [h1]
  · intro m' fe hmiss
    unfold executeFileWrite
    simp [hmiss]

/-- Metadata for the C6 witness. -/
def c6WitnessMeta : Metadata :=
  { mtype := some "file", file_path := some "notes/a.txt", content := some "hi" }

/-- Witness for `c6_file_write` at a concrete safe write into
`/sandbox/notes/a.txt`. -/
theorem c6_file_write_witness :
    executeFileWrite ⟨true, ["sandbox"]⟩ c6WitnessMeta none
      = ({ success := true, rtype := "file", file_path := some "notes/a.txt",
           bytes_written := some 2 },
         { mkdirParents := true, written := some ("/sandbox/notes/a.txt", "hi") })
    ∧ (executeAgent ⟨true, ["sandbox"]⟩ c6WitnessMeta {}).2.1.files_created = ["notes/a.txt"] := by
  have h := c6_file_write ⟨true, ["sandbox"]⟩ c6WitnessMeta "notes/a.txt" "hi"
    rfl (by decide) rfl (by decide)
  exact ⟨h.1, h.2.2.1 rfl⟩

/-- Failure shape of the command branch: a failed command record carries
either an error message (missing command, blocked command, timeout) or a
non-zero exit code. -/
theorem executeCommand_failure_shape (m : Metadata) (beh : ProcBehavior)
    (h : (executeCommand m beh).1.success = false) :
    (executeCommand m beh).1.error.isSome = true
    ∨ ∃ code, (executeCommand m beh).1.exit_code = some code ∧ code ≠ 0 := by
  unfold executeCommand at h ⊢
  by_cases hcmd : m.command.getD "" = ""
  · left
    simp [hcmd, mkError]
  · rcases hv : validate_command (m.command.getD "") with ⟨b, reason⟩
    cases b
    · left
      simp [hcmd, hv, mkError]
    · cases beh with
      | completes code out =>
        simp only [hcmd, if_false, hv] at h ⊢
        right
        refine ⟨code, by simp, ?_⟩
        intro hc0
        rw [hc0] at h
        simp at h
      | timesOut =>
        left
        simp [hcmd, hv, mkError]

/-- Failure shape of the HTTP branch: a failed HTTP record carries either an
error message (missing URL, transport error) or an out-of-range status. -/
theorem executeHttp_failure_shape (m : Metadata) (beh : HttpBehavior)
    (h : (executeHttp m beh).success = false) :
    (executeHttp m beh).error.isSome = true
    ∨ ∃ sc, (executeHttp m beh).status_code = some sc ∧ ¬ (200 ≤ sc ∧ sc < 300) := by
  unfold executeHttp at h ⊢
  rcases hurl : m.url with _ | url
  · left
    simp [hurl, mkError]
  · by_cases hue : url = ""
    · left
      simp [hurl, hue, mkError]
    · cases beh with
      | responds sc body =>
        simp only [hurl, hue, if_false] at h ⊢
        right
        refine ⟨sc, by simp, ?_⟩
        simp only [decide_eq_false_iff_not] at h
        exact h
      | raises e =>
        left
        simp [hurl, hue, mkError]

/-- Failure shape of the server branch: every failed server record carries
an error message. -/
theorem executeServer_failure_shape (m : Metadata) (beh : SpawnBehavior)
    (h : (executeServer m beh).1.success = false) :
    (executeServer m beh).1.error.isSome = true := by
  unfold executeServer at h ⊢
  by_cases ha : m.action = some "start"
  · rw [if_neg (by simp [ha])] at h ⊢
    by_cases hs : m.start_command.getD "" = ""
    · simp [hs, mkError]
    · simp only [hs, if_false] at h ⊢
      cases beh with
      | spawns pid => simp at h
      | raises e => simp [mkError]
  · rw [if_pos (by simp [ha])]
    simp [mkError]

/-- Failure shape of the file branch: every failed file-write record carries
an error message. -/
theorem executeFileWrite_failure_shape (workspace : PurePath) (m : Metadata)
    (fe : Option String) (h : (executeFileWrite workspace m fe).1.success = false) :
    (executeFileWrite workspace m fe).1.error.isSome = true := by
  unfold executeFileWrite at h ⊢
  by_cases h1 : m.file_path.getD "" = ""
  · simp [h1, mkError]
  · rcases h2 : startsWithStr
        (pathStr (pyResolve (pathJoin workspace (strToPath (m.file_path.getD "")))))
        (pathStr workspace) with _ | _
    · simp [h1, h2, mkError]
    · simp only [h1, if_false, h2] at h ⊢
      rcases fe with _ | e
      · simp at h
      · simp [mkError]

/-- Metadata exhibiting claim C5's failure: a safe command whose subprocess
times out, and the same command exiting non-zero. -/
def c5Meta : Metadata := { mtype := some "command", command := some "python long_job.py" }

/-- Claim C5, counterexample: on timeout the command action does spawn the
subprocess and returns a failure mentioning the timeout, but performs no
termination of the spawned process (`killed = false`: the source catches
`TimeoutExpired` from `process.wait` and returns without killing the
child); moreover a non-zero exit yields a failure record with no error
message, against the claim's "every failure path is converted into a
returned record with success false and an error message". -/
theorem c5_timeout_counterexample :
    (executeCommand c5Meta .timesOut).2.spawned = true
    ∧ (executeCommand c5Meta .timesOut).2.killed = false
    ∧ (executeCommand c5Meta .timesOut).1.error = some "Command timeout"
    ∧ (executeCommand c5Meta (.completes 1 ["boom"])).1.success = false
    ∧ (executeCommand c5Meta (.completes 1 ["boom"])).1.error = none := by
  decide

/-- Claim C5 as amended: a process-command outcome is successful iff the
subprocess exit code is zero; on timeout the action returns a failure
record whose error mentions the timeout but the spawned process is left
unterminated; and no execution type raises — every branch returns a
normalized record, which on failure carries an error message except for a
non-zero exit code or an out-of-range HTTP status (whose records report
`success = false` with the exit code or status instead of an error
message). -/
theorem c5_command_runner :
    (∀ (m : Metadata) (c : String) (code : Int) (out : List String),
        m.command = some c → c ≠ "" → (validate_command c).1 = true →
        executeCommand m (.completes code out)
          = ({ success := code == 0, rtype := "command", command := some c,
               exit_code := some code, stdout := some (String.join out) },
             { spawned := true }))
    ∧ (∀ (m : Metadata) (c : String),
        m.command = some c → c ≠ "" → (validate_command c).1 = true →
        executeCommand m .timesOut
          = (mkError "Command timeout" "command" (some c),
             { spawned := true, killed := false }))
    ∧ (∀ (workspace : PurePath) (m : Metadata) (w : WorldBehavior),
        (executeAgent workspace m w).1.success = false →
        ((executeAgent workspace m w).1.error.isSome = true
         ∨ (∃ code, (executeAgent workspace m w).1.exit_code = some code ∧ code ≠ 0)
         ∨ (∃ sc, (executeAgent workspace m w).1.status_code = some sc
              ∧ ¬ (200 ≤ sc ∧ sc < 300)))) := by
  refine ⟨?_, ?_, ?_⟩
  · intro m c code out hm hcne hval
    rcases hq : validate_command c with ⟨b, reason⟩
    rw [hq] at hval
    simp only at hval
    subst hval
    unfold executeCommand
    simp [hm, hcne, hq]
  · intro m c hm hcne hval
    rcases hq : validate_command c with ⟨b, reason⟩
    rw [hq] at hval
    simp only at hval
    subst hval
    unfold executeCommand
    simp [hm, hcne, hq, mkError]
  · intro workspace m w h
    unfold executeAgent at h ⊢
    by_cases h1 : m.mtype.getD "noop" = "noop"
    · simp [h1] at h
    · by_cases h2 : m.mtype.getD "noop" = "command"
      · simp only [h1, if_false, h2, if_true] at h ⊢
        rcases executeCommand_failure_shape m w.proc h with hc | hc
        · exact Or.inl hc
        · exact Or.inr (Or.inl hc)
      · by_cases h3 : m.mtype.getD "noop" = "http"
        · simp only [h1, h2, if_false, h3, if_true] at h ⊢
          rcases executeHttp_failure_shape m w.http h with hc | hc
          · exact Or.inl hc
          · exact Or.inr (Or.inr hc)
        · by_cases h4 : m.mtype.getD "noop" = "server"
          · simp only [h1, h2, h3, if_false, h4, if_true] at h ⊢
            exact Or.inl (executeServer_failure_shape m w.spawn h)
          · by_cases h5 : m.mtype.getD "noop" = "file"
            · simp only [h1, h2, h3, h4, if_false, h5, if_true] at h ⊢
              exact Or.inl (executeFileWrite_failure_shape workspace m w.fileErr h)
            · simp only [h1, h2, h3, h4, h5, if_false] at h ⊢
              left
              simp [mkError]

/-- Metadata for the C5 witness. -/
def c5WitnessMeta : Metadata := { mtype := some "command", command := some "ls data" }

/-- World behaviour for the C5 witness's failing run. -/
def c5FailWorld : WorldBehavior := { proc := .completes 2 [] }

/-- Witness for `c5_command_runner` at concrete inputs: a safe command
exiting zero succeeds with its exit code and output recorded; the same
command timing out returns the timeout failure with the process left
unterminated; and a run exiting 2 satisfies the failure characterisation. -/
theorem c5_command_runner_witness :
    executeCommand c5WitnessMeta (.completes 0 ["a.txt\n"])
      = ({ success := true, rtype := "command", command := some "ls data",
           exit_code := some 0, stdout := some "a.txt\n" },
         { spawned := true })
    ∧ executeCommand c5WitnessMeta .timesOut
      = (mkError "Command timeout" "command" (some "ls data"),
         { spawned := true, killed := false })
    ∧ ((executeAgent ⟨true, ["sandbox"]⟩ c5WitnessMeta c5FailWorld).1.error.isSome = true
       ∨ (∃ code, (executeAgent ⟨true, ["sandbox"]⟩ c5WitnessMeta c5FailWorld).1.exit_code
            = some code ∧ code ≠ 0)
       ∨ (∃ sc, (executeAgent ⟨true, ["sandbox"]⟩ c5WitnessMeta c5FailWorld).1.status_code
            = some sc ∧ ¬ (200 ≤ sc ∧ sc < 300))) :=
  ⟨c5_command_runner.1 c5WitnessMeta "ls data" 0 ["a.txt\n"] rfl (by decide) (by decide),
   c5_command_runner.2.1 c5WitnessMeta "ls data" rfl (by decide) (by decide),
   c5_command_runner.2.2 ⟨true, ["sandbox"]⟩ c5WitnessMeta c5FailWorld (by decide)⟩

/-- Claim C2: whenever the dispatched agent's `execute` returns without
raising, `_execute_task` marks the task completed and returns true even
when the attached `ActionResult` has `success = false`; such a task's
action outcome is still appended to the objective's `actions_executed`
list by the loop, and the completed task can never make the objective's
final status `failed`. -/
theorem c2_completed_despite_failed_action
    (oracle : AgentOracle) (task : Task) (ctx : Context) (r : String) (a : ActionResult)
    (h : oracle ctx (replaceTaskPlaceholders { task with status := .in_progress } ctx)
        = .returns r (some a)) :
    (executeTask oracle task ctx).2 = true
    ∧ (executeTask oracle task ctx).1.status = .completed
    ∧ (executeTask oracle task ctx).1.action_result = some a
    ∧ (∀ (s : RunState) (i : Nat) (t0 : Task),
        s.tasks[i]? = some t0 → checkDependencies t0 s.tasks = true →
        (executeTask oracle t0 s.context).2 = true →
        (stepTask oracle s i).actions_executed
          = s.actions_executed
            ++ (match (executeTask oracle t0 s.context).1.action_result with
                | some ar => [ar] | none => []))
    ∧ (∀ pre post : List Task,
        determineStatus (pre ++ (executeTask oracle task ctx).1 :: post) ≠ .failed) := by
  have hex : executeTask oracle task ctx
      = ({ replaceTaskPlaceholders { task with status := .in_progress } ctx with
            result := some r, action_result := some a, status := .completed }, true) := by
    unfold executeTask
    dsimp only
    rw [h]
  refine ⟨by rw [hex], by rw [hex], by rw [hex], ?_, ?_⟩
  · intro s i t0 hget hdeps hok
    simp only [stepTask, hget]
    rw [if_neg (by simp [hdeps])]
    rcases hexe : executeTask oracle t0 s.context with ⟨t', ok⟩
    rw [hexe] at hok
    simp only at hok
    subst hok
    simp [hexe]
  · intro pre post
    have hst : (executeTask oracle task ctx).1.status = .completed := by rw [hex]
    unfold determineStatus
    by_cases hall : ((pre ++ (executeTask oracle task ctx).1 :: post).all
        fun t => t.status == TaskStatus.completed) = true
    · rw [if_pos hall]
      intro hc
      exact ObjectiveStatus.noConfusion hc
    · rw [if_neg hall]
      have hany : ((pre ++ (executeTask oracle task ctx).1 :: post).any
          fun t => t.status == TaskStatus.completed) = true := by
        refine List.any_eq_true.mpr ⟨(executeTask oracle task ctx).1, ?_, by simp [hst]⟩
        exact List.mem_append.mpr (Or.inr (List.mem_cons_self _ _))
      rw [if_pos hany]
      intro hc
      exact ObjectiveStatus.noConfusion hc

/-- Action result with `success = false` used by the C2 witness. -/
def c2FailAR : ActionResult :=
  { action_type := .command_run, success := false, error := some "exit 1" }

/-- Agent behaviour for the C2 witness: returns normally but attaches a
failed action outcome. -/
def c2Oracle : AgentOracle := fun _ _ => .returns "done" (some c2FailAR)

/-- Task for the C2 witness. -/
def c2Task : Task := { id := "t1", agent_type := .execution }

/-- Witness for `c2_completed_despite_failed_action`: an agent returning
normally with a failed action outcome still yields a completed task. -/
theorem c2_completed_despite_failed_action_witness :
    (executeTask c2Oracle c2Task []).2 = true
    ∧ (executeTask c2Oracle c2Task []).1.status = .completed
    ∧ (executeTask c2Oracle c2Task []).1.action_result = some c2FailAR
    ∧ c2FailAR.success = false
    ∧ determineStatus ([] ++ (executeTask c2Oracle c2Task []).1 :: []) ≠ .failed :=
  have h := c2_completed_despite_failed_action c2Oracle c2Task [] "done" c2FailAR rfl
  ⟨h.1, h.2.1, h.2.2.1, by decide, h.2.2.2.2 [] []⟩

/-- One loop iteration leaves the dispatch trace unchanged or appends
exactly its own index. -/
theorem stepTask_dispatched (or : AgentOracle) (s : RunState) (i : Nat) :
    (stepTask or s i).dispatched = s.dispatched
    ∨ (stepTask or s i).dispatched = s.dispatched ++ [i] := by
  unfold stepTask
  rcases s.tasks[i]? with _ | t
  · exact Or.inl rfl
  · dsimp only
    by_cases hd : checkDependencies t s.tasks = true
    · rw [if_neg (by simp [hd])]
      rcases executeTask or t s.context with ⟨t', ok⟩
      cases ok
      · exact Or.inr rfl
      · exact Or.inr rfl
    · rw [if_pos (by simp [hd])]
      exact Or.inl rfl

/-- One loop iteration leaves the task list unchanged or writes exactly at
its own index. -/
theorem stepTask_tasks_shape (or : AgentOracle) (s : RunState) (i : Nat) :
    (stepTask or s i).tasks = s.tasks
    ∨ ∃ t', (stepTask or s i).tasks = s.tasks.set i t' := by
  unfold stepTask
  rcases s.tasks[i]? with _ | t
  · exact Or.inl rfl
  · dsimp only
    by_cases hd : checkDependencies t s.tasks = true
    · rw [if_neg (by simp [hd])]
      rcases executeTask or t s.context with ⟨t', ok⟩
      cases ok
      · exact Or.inr ⟨t', rfl⟩
      · exact Or.inr ⟨t', rfl⟩
    · rw [if_pos (by simp [hd])]
      exact Or.inr ⟨_, rfl⟩

/-- Unrolling of the loop state by one iteration. -/
theorem stateAt_succ (or : AgentOracle) (tasks : List Task) (k : Nat) :
    stateAt or tasks (k + 1) = stepTask or (stateAt or tasks k) k := by
  unfold stateAt
  rw [List.range_succ, List.foldl_append]
  rfl

/-- Every index in the dispatch trace after `k` iterations is below `k`. -/
theorem dispatched_bound (or : AgentOracle) (tasks : List Task) :
    ∀ k j, j ∈ (stateAt or tasks k).dispatched → j < k := by
  intro k
  induction k with
  | zero =>
    intro j hj
    simp [stateAt, initState] at hj
  | succ k ih =>
    intro j hj
    rw [stateAt_succ] at hj
    rcases stepTask_dispatched or (stateAt or tasks k) k with hdi | hdi
    · rw [hdi] at hj
      exact Nat.lt_succ_of_lt (ih j hj)
    · rw [hdi] at hj
      rcases List.mem_append.mp hj with hm | hm
      · exact Nat.lt_succ_of_lt (ih j hm)
      · rw [List.mem_singleton.mp hm]
        exact Nat.lt_succ_self k

/-- The loop never changes the number of tasks. -/
theorem stateAt_tasks_length (or : AgentOracle) (tasks : List Task) :
    ∀ k, (stateAt or tasks k).tasks.length = tasks.length := by
  intro k
  induction k with
  | zero => rfl
  | succ k ih =>
    rw [stateAt_succ]
    rcases stepTask_tasks_shape or (stateAt or tasks k) k with hsh | ⟨t', hsh⟩
    · rw [hsh, ih]
    · rw [hsh, List.length_set, ih]

/-- A task whose dependency check fails at its turn is marked failed with
the dependency error, in place, and the iteration dispatches nothing. -/
theorem stepTask_dep_failed (or : AgentOracle) (s : RunState) (i : Nat) (t : Task)
    (hget : s.tasks[i]? = some t) (hdep : checkDependencies t s.tasks = false) :
    (stepTask or s i).tasks[i]?
      = some { t with status := .failed, error := some "Dependencies not met" }
    ∧ (stepTask or s i).dispatched = s.dispatched := by
  simp only [stepTask, hget]
  rw [if_pos (by simp [hdep])]
  refine ⟨?_, rfl⟩
  have hlt : i < s.tasks.length := by
    rcases List.getElem?_eq_some.mp hget with ⟨hl, _⟩
    exact hl
  rw [List.getElem?_set]
  simp [hlt]

/-- Once an index's entry and absence from the dispatch trace are
established right after its own iteration, the remaining iterations
preserve both. -/
theorem run_preserve (or : AgentOracle) (tasks : List Task) (i : Nat) (x : Option Task)
    (h1 : (stateAt or tasks (i + 1)).tasks[i]? = x)
    (h2 : i ∉ (stateAt or tasks (i + 1)).dispatched) :
    ∀ d, (stateAt or tasks (i + 1 + d)).tasks[i]? = x
      ∧ i ∉ (stateAt or tasks (i + 1 + d)).dispatched := by
  intro d
  induction d with
  | zero => exact ⟨h1, h2⟩
  | succ d ih =>
    have hne : i + 1 + d ≠ i := by omega
    rw [show i + 1 + (d + 1) = (i + 1 + d) + 1 from rfl, stateAt_succ]
    constructor
    · rcases stepTask_tasks_shape or (stateAt or tasks (i + 1 + d)) (i + 1 + d) with hsh | ⟨t', hsh⟩
      · rw [hsh]
        exact ih.1
      · rw [hsh, List.getElem?_set_ne hne]
        exact ih.1
    · rcases stepTask_dispatched or (stateAt or tasks (i + 1 + d)) (i + 1 + d) with hdi | hdi
      · rw [hdi]
        exact ih.2
      · rw [hdi]
        intro hmem
        rcases List.mem_append.mp hmem with hm | hm
        · exact ih.2 hm
        · exact hne (List.mem_singleton.mp hm).symm

/-- Tasks with pairwise distinct ids are determined by their id. -/
theorem id_injective_of_nodup (l : List Task) (h : (l.map fun t => t.id).Nodup)
    (a b : Task) (ha : a ∈ l) (hb : b ∈ l) (hid : a.id = b.id) : a = b := by
  by_contra hne
  have hp : List.Pairwise (fun x y : Task => x.id ≠ y.id) l := List.pairwise_map.mp h
  have hsymm : Symmetric (fun x y : Task => x.id ≠ y.id) := fun x y hxy he => hxy he.symm
  exact hp.forall hsymm ha hb hne hid

/-- Claim C8: a task is eligible iff every declared dependency id resolves
to an existing task (of the same objective, with distinct task ids) whose
status is completed — in particular a task with no dependencies is always
eligible; and a task whose dependency check fails at its turn in the run is
never dispatched to any capability and ends the run with status failed and
the dependency error, with no retry attempted. -/
theorem c8_dependency_gate :
    (∀ (task : Task) (all_tasks : List Task),
        (all_tasks.map fun t => t.id).Nodup →
        (checkDependencies task all_tasks = true ↔
          ∀ d ∈ task.dependencies, ∃ t ∈ all_tasks, t.id = d ∧ t.status = .completed))
    ∧ (∀ (or : AgentOracle) (tasks : List Task) (i : Nat) (t : Task),
        (stateAt or tasks i).tasks[i]? = some t →
        checkDependencies t (stateAt or tasks i).tasks = false →
        (runObjective or tasks).tasks[i]?
            = some { t with status := .failed, error := some "Dependencies not met" }
        ∧ i ∉ (runObjective or tasks).dispatched) := by
  constructor
  · intro task all_tasks hnodup
    unfold checkDependencies
    rw [List.all_eq_true]
    constructor
    · intro hall d hd
      have hp := hall d hd
      rcases hf : all_tasks.find? (fun t => t.id == d) with _ | dt
      · rw [hf] at hp
        exact absurd hp (by simp)
      · rw [hf] at hp
        have hid0 := List.find?_some hf
        have hid : dt.id = d := by simpa using hid0
        have hst : dt.status = .completed := by simpa using hp
        exact ⟨dt, List.mem_of_find?_eq_some hf, hid, hst⟩
    · intro hex d hd
      obtain ⟨t0, ht0mem, ht0id, ht0st⟩ := hex d hd
      rcases hf : all_tasks.find? (fun t => t.id == d) with _ | dt
      · exact absurd (by simpa using ht0id) (List.find?_eq_none.mp hf t0 ht0mem)
      · rw [hf]
        have hid0 := List.find?_some hf
        have hid : dt.id = d := by simpa using hid0
        have heq : dt = t0 :=
          id_injective_of_nodup all_tasks hnodup dt t0 (List.mem_of_find?_eq_some hf) ht0mem
            (hid.trans ht0id.symm)
        simp [heq, ht0st]
  · intro or tasks i t hget hdep
    have hstep := stepTask_dep_failed or (stateAt or tasks i) i t hget hdep
    have h1 : (stateAt or tasks (i + 1)).tasks[i]?
        = some { t with status := .failed, error := some "Dependencies not met" } := by
      rw [stateAt_succ]
      exact hstep.1
    have h2 : i ∉ (stateAt or tasks (i + 1)).dispatched := by
      rw [stateAt_succ, hstep.2]
      intro hmem
      exact absurd (dispatched_bound or tasks i i hmem) (lt_irrefl i)
    have hlt : i < tasks.length := by
      have hl := (List.getElem?_eq_some.mp hget).1
      rwa [stateAt_tasks_length] at hl
    have hfin := run_preserve or tasks i _ h1 h2 (tasks.length - (i + 1))
    have hlen : i + 1 + (tasks.length - (i + 1)) = tasks.length := by omega
    unfold runObjective
    rw [← hlen]
    exact hfin

/-- Task with an unresolvable dependency, for the C8 witness. -/
def c8Task : Task := { id := "a", agent_type := .execution, dependencies := ["missing"] }

/-- Agent behaviour for the C8 witness (never reached by the run). -/
def c8Oracle : AgentOracle := fun _ _ => .returns "r" none

/-- Witness for `c8_dependency_gate`: a one-task objective whose only task
depends on an unknown id — the eligibility characterisation holds, the task
ends the run failed with the dependency error, and it is never
dispatched. -/
theorem c8_dependency_gate_witness :
    (checkDependencies c8Task [c8Task] = true ↔
      ∀ d ∈ c8Task.dependencies, ∃ t ∈ [c8Task], t.id = d ∧ t.status = .completed)
    ∧ (runObjective c8Oracle [c8Task]).tasks[0]?
        = some { c8Task with status := .failed, error := some "Dependencies not met" }
    ∧ 0 ∉ (runObjective c8Oracle [c8Task]).dispatched :=
  have h := c8_dependency_gate.2 c8Oracle [c8Task] 0 c8Task rfl (by decide)
  ⟨c8_dependency_gate.1 c8Task [c8Task] (by decide), h.1, h.2⟩

/-- Metadata of the C1 failing input: an execution task running a safe
command whose subprocess exits 1. -/
def c1Meta : Metadata := { mtype := some "command", command := some "python build.py" }

/-- The C1 failing input task. -/
def c1Task : Task :=
  { id := "task_1", description := "run the build", agent_type := .execution,
    metadata := c1Meta }

/-- World behaviour of the C1 run: the spawned command exits 1. -/
def c1World : WorldBehavior := { proc := .completes 1 ["error: build failed\n"] }

/-- Sandbox root of the C1 run. -/
def c1Ws : PurePath := ⟨true, ["sandbox"]⟩

/-- Agent behaviour of the C1 run: the dispatched execution agent, i.e.
`ExecutionAgent.execute` on the task's metadata, attaching its action
result. -/
def c1Oracle : AgentOracle :=
  fun _ t => .returns "result" (some (executeAgent c1Ws t.metadata c1World).2.1)

/-- Claim C1 evaluation at the failing input: the execution result of the
failing command is one the validation gate rejects
(`_validate_execution_result` returns false on it), yet `execute_objective`
never invokes `ValidationAgent.validate` — the run marks the task completed
with `retry_count` still 0, no feedback entry in its metadata, no reset to
pending and no re-dispatch, against the claim's retry protocol. -/
theorem c1_no_validation_no_retry :
    (validateExecutionResult (fun _ => false) (executeAgent c1Ws c1Meta c1World).1).1 = false
    ∧ ((runObjective c1Oracle [c1Task]).tasks.map fun t => (t.status, t.retry_count, t.error))
        = [(.completed, 0, none)]
    ∧ ((runObjective c1Oracle [c1Task]).tasks.map fun t => t.metadata) = [c1Meta]
    ∧ ((runObjective c1Oracle [c1Task]).tasks.map fun t =>
        t.action_result.map fun ar => ar.success) = [some false]
    ∧ (runObjective c1Oracle [c1Task]).dispatched = [0] := by
  decide

end Agents
